import Mathlib

/-!
Shallow embedding of the callsy command-line tool (src/callsy/src/processing.rs
and main.rs) and proofs about its request/response pipeline.

Modelling conventions:
* Rust `HashMap<String, _>` values are embedded as association lists
  `List (String × _)`.  A real `HashMap` has pairwise-distinct keys and an
  arbitrary iteration order; every theorem below is stated so that it holds
  for any iteration order.
* Rust `String::to_lowercase` / `to_uppercase` / `trim_end` are embedded as
  ASCII character maps / an ASCII whitespace trim.  They agree with the Rust
  functions on all ASCII input, which is the domain relevant to HTTP methods,
  header names and the y/yes/n/no prompt.
* Fallible operations return `Except String _` mirroring the
  `Result<_, String>` signatures of the source; the error strings are the
  exact `format!` strings of the source.
* External effects (file system, stdin, the JSON deserializer of the input
  file, `url::Url::parse`, and the network send) are parameters gathered in a
  `World` structure, so that `respond` is a pure function of the world.
-/

/-- Decoded input document: struct `RawRequest` of processing.rs.
`headers` embeds `HashMap<String, Option<String>>` as an association list. -/
structure RawRequest where
  url : String
  method : String
  headers : List (String × Option String)
  body : Option String
  body_path : Option String
deriving DecidableEq, Repr

/-- Normalized outbound request: struct `ProcessedRequest` of processing.rs.
Note that `url` is a plain (unparsed) string, exactly as in the source. -/
structure ProcessedRequest where
  url : String
  method : String
  headers : List (String × String)
  body : String
deriving DecidableEq, Repr

/-- Output document: struct `OutputResponse` of processing.rs
(field order `headers`, `status_code`, `body` matches the Rust struct and is
the serde serialization order). -/
structure OutputResponse where
  headers : List (String × String)
  status_code : String
  body : String
deriving DecidableEq, Repr

/-- Result of `File::open` followed by `read_to_string` on a path: either the
full contents, or an OS error code raised when opening, or one raised while
reading. -/
inductive ReadResult where
  | ok : String → ReadResult
  | openError : Int → ReadResult
  | readError : Int → ReadResult
deriving DecidableEq, Repr

/-- ASCII model of Rust `String::to_uppercase` (agrees on ASCII input; the
Unicode cases do not matter for HTTP tokens). -/
def to_uppercase (s : String) : String :=
  String.mk (s.toList.map Char.toUpper)

/-- ASCII model of Rust `String::to_lowercase` (agrees on ASCII input). -/
def to_lowercase (s : String) : String :=
  String.mk (s.toList.map Char.toLower)

/-- Body resolution: function `get_body` of processing.rs.  `readFile` models
`File::open` plus `read_to_string` on the body file. -/
def get_body (readFile : String → ReadResult) (raw : RawRequest) : Except String String :=
  match raw.body_path, raw.body with
  | some _, some _ => .error "Cannot provide both a body and body_path."
  | some path, none =>
    match readFile path with
    | .ok contents => .ok contents
    | .openError n => .error ("Failed to open the body file. OS error: " ++ toString n)
    | .readError n => .error ("Failed to read body file. OS error: " ++ toString n)
  | none, some body => .ok body
  | none, none => .ok ""

/-- Character class of the `METHOD_CHARS` table of the `http` crate
(`Method::from_bytes`): the RFC 7230 token characters.  Code points 39 and 96
are the apostrophe and the backtick. -/
def is_method_char (c : Char) : Bool :=
  c.isAlphanum || c = '!' || c = '#' || c = '$' || c = '%' || c = '&' || c = '*' ||
  c = '+' || c = '-' || c = '.' || c = '^' || c = '_' || c = '|' || c = '~' ||
  c.toNat = 39 || c.toNat = 96

/-- Model of `http::Method::from_bytes` (re-exported by reqwest): any
non-empty string of token characters is a valid method (the named methods
such as GET are just interned values of the same token set); anything else is
rejected.  The method value is represented by its token string. -/
def method_from_bytes (s : String) : Option String :=
  if s.length > 0 && s.toList.all is_method_char then some s else none

/-- Method resolution: inner function `convert_http_method` of
`process_request_data`.  Uppercases (ASCII, agreeing with Rust
`to_uppercase` on ASCII) and validates via `Method::from_bytes`. -/
def convert_http_method (method : String) : Except String String :=
  match method_from_bytes (to_uppercase method) with
  | some m => .ok m
  | none => .error ("The provided HTTP method of " ++ method ++ " is invalid.")

/-- Error text of the null-header failure in `process_request_data`. -/
def unresolvable_msg (h : String) : String :=
  "Cannot autocomplete value of " ++ h ++ " header. Try supplying a value directly."

/-- Header resolution loop of `process_request_data`: explicit values are
copied verbatim; a null value is auto-derived only for `content-length`
(case-insensitive, Rust `to_lowercase`), computed as the decimal UTF-8 byte
length (`body.len()`) of the resolved body; any other null header aborts. -/
def resolve_headers (body : String) : List (String × Option String) → Except String (List (String × String))
  | [] => .ok []
  | (header, some v) :: rest =>
    match resolve_headers body rest with
    | .ok out => .ok ((header, v) :: out)
    | .error e => .error e
  | (header, none) :: rest =>
    if to_lowercase header = "content-length" then
      match resolve_headers body rest with
      | .ok out => .ok ((header, toString body.utf8ByteSize) :: out)
      | .error e => .error e
    else .error (unresolvable_msg header)

/-- Request normalization: function `process_request_data` of processing.rs.
Converts the method first, then resolves the headers; the url string is
copied through untouched. -/
def process_request_data (raw : RawRequest) (body : String) : Except String ProcessedRequest :=
  match convert_http_method raw.method with
  | .error e => .error e
  | .ok method =>
    match resolve_headers body raw.headers with
    | .error e => .error e
    | .ok headers => .ok { url := raw.url, method := method, headers := headers, body := body }

/-- Wire response as consumed by `convert_response`: the status code, the
response header map (header names are the lowercase `as_str` names of the
`HeaderMap`, values are raw byte sequences), and the result of
`response.text().await` (`.error` models a read/decode failure of the body
stream). -/
structure ResponseData where
  status : Nat
  headers : List (String × List Nat)
  body : Except String String
deriving Repr

/-- Model of `http::HeaderValue::to_str`: succeeds iff every byte is visible
ASCII (32..126) or horizontal tab (9), yielding those bytes as characters. -/
def header_value_to_str (bytes : List Nat) : Option String :=
  if bytes.all (fun b => b = 9 || (32 ≤ b && b < 127)) then
    some (String.mk (bytes.map Char.ofNat))
  else none

/-- Header projection loop of `convert_response`: each header value that
decodes as text is copied, an undecodable one is mapped to the empty
string. -/
def output_headers (hs : List (String × List Nat)) : List (String × String) :=
  hs.map (fun kv =>
    (kv.1, match header_value_to_str kv.2 with
           | some v => v
           | none => ""))

/-- Response projection: function `convert_response` of processing.rs.
The status code is rendered via `StatusCode::as_str` (its decimal digits); a
body read/decode failure aborts with the source's error string. -/
def convert_response (resp : ResponseData) : Except String OutputResponse :=
  match resp.body with
  | .ok body =>
    .ok { headers := output_headers resp.headers,
          status_code := toString resp.status,
          body := body }
  | .error e => .error ("Failed to get text from response body, " ++ e)

/-- Lowercase hexadecimal digit, as used by serde_json control escapes. -/
def hex_digit (n : Nat) : Char :=
  if n < 10 then Char.ofNat (48 + n) else Char.ofNat (87 + n)

/-- Model of serde_json string escaping: quote, backslash, the short control
escapes, and a lowercase u-escape for other control characters. -/
def escape_char (c : Char) : String :=
  if c = '"' then "\\\""
  else if c = '\\' then "\\\\"
  else if c.toNat = 8 then "\\b"
  else if c.toNat = 9 then "\\t"
  else if c.toNat = 10 then "\\n"
  else if c.toNat = 12 then "\\f"
  else if c.toNat = 13 then "\\r"
  else if c.toNat < 32 then "\\u00" ++ String.mk [hex_digit (c.toNat / 16), hex_digit (c.toNat % 16)]
  else String.singleton c

/-- Serialization of a JSON string literal as serde_json emits it. -/
def json_string (s : String) : String :=
  "\"" ++ String.join (s.toList.map escape_char) ++ "\""

/-- Serialization of a string-to-string map as serde_json emits it (the
entries in iteration order, no interstitial whitespace). -/
def serialize_str_map (l : List (String × String)) : String :=
  "\x7b" ++ String.intercalate "," (l.map (fun kv => json_string kv.1 ++ ":" ++ json_string kv.2)) ++ "\x7d"

/-- Output serialization: function `serialize_response` of processing.rs,
i.e. `serde_json::to_string` on the `OutputResponse` struct.  Serde emits the
fields in declaration order (`headers`, `status_code`, `body`); serializing
this struct (strings and a string map) cannot fail, so the panic branch of
the source is unreachable and the function is total. -/
def serialize_response (o : OutputResponse) : String :=
  "\x7b\"headers\":" ++ serialize_str_map o.headers ++
  ",\"status_code\":" ++ json_string o.status_code ++
  ",\"body\":" ++ json_string o.body ++ "\x7d"

/-- Value of a hexadecimal digit character, if any. -/
def hex_val (c : Char) : Option Nat :=
  if c.isDigit then some (c.toNat - 48)
  else if 97 ≤ c.toNat && c.toNat ≤ 102 then some (c.toNat - 87)
  else if 65 ≤ c.toNat && c.toNat ≤ 70 then some (c.toNat - 55)
  else none

/-- Single-character JSON escapes accepted after a backslash. -/
def unescape_char (e : Char) : Option Char :=
  if e = '"' then some '"'
  else if e = '\\' then some '\\'
  else if e = '/' then some '/'
  else if e = 'b' then some (Char.ofNat 8)
  else if e = 'f' then some (Char.ofNat 12)
  else if e = 'n' then some (Char.ofNat 10)
  else if e = 'r' then some (Char.ofNat 13)
  else if e = 't' then some (Char.ofNat 9)
  else none

/-- Parse the remainder of a JSON string literal (the opening quote already
consumed), returning the decoded characters and the rest of the input. -/
def parse_string_chars : List Char → Option (List Char × List Char)
  | [] => none
  | c :: rest =>
    if c = '"' then some ([], rest)
    else if c = '\\' then
      match rest with
      | [] => none
      | e :: rest2 =>
        if e = 'u' then
          match rest2 with
          | h1 :: h2 :: h3 :: h4 :: rest3 =>
            match hex_val h1, hex_val h2, hex_val h3, hex_val h4 with
            | some a, some b, some c3, some d =>
              match parse_string_chars rest3 with
              | some (s, r) => some (Char.ofNat (((a * 16 + b) * 16 + c3) * 16 + d) :: s, r)
              | none => none
            | _, _, _, _ => none
          | _ => none
        else
          match unescape_char e with
          | some u =>
            match parse_string_chars rest2 with
            | some (s, r) => some (u :: s, r)
            | none => none
          | none => none
    else
      match parse_string_chars rest with
      | some (s, r) => some (c :: s, r)
      | none => none

/-- Parse the members of a non-empty string-to-string JSON object, positioned
just after the opening brace, up to and including the closing brace.  The
fuel argument bounds the number of members and exceeds it when instantiated
with the input length. -/
def parse_members : Nat → List Char → Option (List (String × String) × List Char)
  | 0, _ => none
  | fuel + 1, cs =>
    match cs with
    | [] => none
    | c :: rest =>
      if c = '"' then
        match parse_string_chars rest with
        | some (k, r1) =>
          match r1 with
          | c2 :: c3 :: r2 =>
            if c2 = ':' && c3 = '"' then
              match parse_string_chars r2 with
              | some (v, r3) =>
                match r3 with
                | c4 :: r4 =>
                  if c4 = ',' then
                    match parse_members fuel r4 with
                    | some (ps, r5) => some ((String.mk k, String.mk v) :: ps, r5)
                    | none => none
                  else if c4 = Char.ofNat 125 then
                    some ([(String.mk k, String.mk v)], r4)
                  else none
                | [] => none
              | none => none
            else none
          | _ => none
        | none => none
      else none

/-- Parse a string-to-string JSON object (including the braces). -/
def parse_str_map (cs : List Char) : Option (List (String × String) × List Char) :=
  match cs with
  | c :: rest =>
    if c = Char.ofNat 123 then
      match rest with
      | d :: rest2 =>
        if d = Char.ofNat 125 then some ([], rest2)
        else parse_members (rest.length + 1) rest
      | [] => none
    else none
  | [] => none

/-- Consume an exact literal character sequence from the input. -/
def take_exact : List Char → List Char → Option (List Char)
  | [], cs => some cs
  | _ :: _, [] => none
  | p :: ps, c :: cs => if c = p then take_exact ps cs else none

/-- Model of `serde_json::from_str` for the `OutputResponse` document,
restricted to the canonical form that `serialize_response` emits (the fields
in declaration order, no interstitial whitespace); this is the grammar needed
to state the serialize-then-parse round trip. -/
def parse_output (s : String) : Option OutputResponse :=
  match take_exact ("\x7b\"headers\":").toList s.toList with
  | none => none
  | some r1 =>
    match parse_str_map r1 with
    | none => none
    | some (hs, r2) =>
      match take_exact (",\"status_code\":\"").toList r2 with
      | none => none
      | some r3 =>
        match parse_string_chars r3 with
        | none => none
        | some (sc, r4) =>
          match take_exact (",\"body\":\"").toList r4 with
          | none => none
          | some r5 =>
            match parse_string_chars r5 with
            | none => none
            | some (b, r6) =>
              if r6 = [Char.ofNat 125] then
                some { headers := hs, status_code := String.mk sc, body := String.mk b }
              else none

/-- Scheme-body check of the URL standard: characters allowed after the first
scheme character, up to the terminating colon. -/
def scheme_rest : List Char → Bool
  | [] => false
  | c :: cs => if c = ':' then true else (c.isAlphanum || c = '+' || c = '-' || c = '.') && scheme_rest cs

/-- Necessary condition for `url::Url::parse` (called with no base URL in
`make_request`) to succeed: an absolute-URL string must start with an ASCII
alphabetic scheme character followed by scheme characters and a colon; a
string that fails this check (after the standard input trimming, which does
not affect the inputs below) is rejected by the parser as a relative URL
without a base. -/
def has_scheme (s : String) : Bool :=
  match s.toList with
  | [] => false
  | c :: cs => c.isAlpha && scheme_rest cs

/-- Validity of a header name for `reqwest::header::HeaderName::from_bytes`:
non-empty and made of token characters (the same table as methods, with
uppercase letters normalized). -/
def header_name_ok (s : String) : Bool :=
  s.length > 0 && s.toList.all is_method_char

/-- Validity of a header value for `reqwest::header::HeaderValue::from_str`:
every byte is horizontal tab or at least 32 and not DEL; characters at or
above 128 encode to bytes at or above 128, which are accepted obs-text. -/
def header_value_ok (s : String) : Bool :=
  s.toList.all (fun c => c.toNat = 9 || (32 ≤ c.toNat && c.toNat ≠ 127))

/-- A header entry that the `HeaderName::from_bytes(..).unwrap()` /
`HeaderValue::from_str(..).unwrap()` pair in `make_request` converts without
panicking. -/
def valid_header (kv : String × String) : Bool :=
  header_name_ok kv.1 && header_value_ok kv.2

/-- Result of running a fallible stage: a value, an error returned as a
`Result`, or a process abort through a panicking `unwrap` (`crash`). -/
inductive Outcome (α : Type) where
  | ok : α → Outcome α
  | fail : String → Outcome α
  | crash : Outcome α
deriving Repr

/-- Transport execution: function `make_request` of processing.rs.
`urlParse` models `url::Url::parse` (the parsed URL is represented by its
serialization) and `send` models the reqwest client send.  The url is parsed
first (the `?` operator); then every header is converted with panicking
`unwrap`s — one invalid header name or value crashes the process before any
send; only then is the request sent.  The boolean records whether the network
send happened. -/
def make_request (urlParse : String → Except String String)
    (send : ProcessedRequest → Except String ResponseData)
    (pr : ProcessedRequest) : Outcome ResponseData × Bool :=
  match urlParse pr.url with
  | .error e => (.fail ("Error while parsing URL. " ++ e), false)
  | .ok _ =>
    if pr.headers.all valid_header then
      match send pr with
      | .ok res => (.ok res, true)
      | .error e => (.fail ("Error when sending the request, " ++ e), true)
    else (.crash, false)

/-- ASCII model of Rust `str::trim_end` (Unicode whitespace trimming agrees
on ASCII input). -/
def trim_end (s : String) : String :=
  String.mk (s.toList.reverse.dropWhile Char.isWhitespace).reverse

/-- Decision taken by one iteration of the confirmation loop in
`check_output_file` on one line read from stdin: `some true` proceeds,
`some false` aborts, `none` falls through to the next prompt. -/
def confirm_input (buffer : String) : Option Bool :=
  let t := trim_end (to_lowercase buffer)
  if t = "y" ∨ t = "yes" then some true
  else if t = "n" ∨ t = "no" then some false
  else none

/-- The retry loop of `check_output_file` over successive `read_line`
results (`none` models an `Err` from `read_line`, which prints a notice and
retries).  The overall result is `none` when the line source is exhausted
without a decision, modelling the loop never terminating (at end of input
`read_line` keeps returning an empty line, which matches no case). -/
def confirm_loop : List (Option String) → Option (Except String Bool × List (Option String))
  | [] => none
  | line :: rest =>
    match line with
    | none => confirm_loop rest
    | some buffer =>
      match confirm_input buffer with
      | some true => some (.ok true, rest)
      | some false => some (.error "Exited due to inability to overwrite existing file.", rest)
      | none => confirm_loop rest

/-- Overwrite guard: function `check_output_file` of processing.rs.  When the
path exists the confirmation loop decides; otherwise it succeeds without
consuming stdin. -/
def check_output_file (pathExists : String → Bool) (path : String)
    (stdin : List (Option String)) : Option (Except String Bool × List (Option String)) :=
  if pathExists path then confirm_loop stdin else some (.ok true, stdin)

/-- Function `check_body_output_file` of processing.rs: the same guard on the
optional body output path. -/
def check_body_output_file (pathExists : String → Bool) (maybePath : Option String)
    (stdin : List (Option String)) : Option (Except String Bool × List (Option String)) :=
  match maybePath with
  | some path => check_output_file pathExists path stdin
  | none => some (.ok true, stdin)

/-- Functions `open_input_file` and `read_input_file` of processing.rs
combined: open then read the input file, with the two distinct error
strings of the source. -/
def open_and_read_input (readFile : String → ReadResult) (path : String) : Except String String :=
  match readFile path with
  | .ok contents => .ok contents
  | .openError n => .error ("Failed to open input file. OS error: " ++ toString n)
  | .readError n => .error ("Failed to read input file. OS error: " ++ toString n)

/-- An I/O error as carried by `std::io::Error`: the raw OS code and the
`Display` rendering (the source formats one or the other depending on the
call site). -/
structure IOErr where
  code : Int
  display : String
deriving DecidableEq, Repr

/-- Observable side effects of one run, in order of occurrence: the network
send, the truncation performed by a successful `File::create` on an output
path, and a completed write of content to an output path. -/
inductive Event where
  | netCall : ProcessedRequest → Event
  | truncate : String → Event
  | fileWrite : String → String → Event
deriving DecidableEq, Repr

/-- Command-line arguments: struct `Arguments` of processing.rs. -/
structure Arguments where
  request_file : String
  output_file : String
  body_output_file : Option String
deriving DecidableEq, Repr

/-- The external collaborators of one `respond` run: path existence, the
stdin line source, the file system reads, `File::create` and file writes on
output paths, the serde_json deserializer of the input document, the URL
parser, and the network send. -/
structure World where
  pathExists : String → Bool
  stdin : List (Option String)
  readFile : String → ReadResult
  createFile : String → Except Int Unit
  writeFile : String → String → Except IOErr Unit
  deserialize : String → Except String RawRequest
  urlParse : String → Except String String
  send : ProcessedRequest → Except String ResponseData

/-- Tail of `respond`: `open_output_file`, `write_to_output_file` and
`open_and_write_to_body_output_file` of processing.rs, with the events they
produce appended after the network call.  The source renders the main write
error with the `Display` of the error and the body-file errors with the raw
OS code, as reproduced here. -/
def write_outputs (w : World) (args : Arguments) (serialized : String) (body : String)
    (pr : ProcessedRequest) : Option (Outcome Unit × List Event) :=
  match w.createFile args.output_file with
  | .error n => some (.fail ("Failed to create output file. OS error " ++ toString n), [.netCall pr])
  | .ok _ =>
    match w.writeFile args.output_file serialized with
    | .error ioe =>
      some (.fail ("Failed to write to output file. OS error " ++ ioe.display),
        [.netCall pr, .truncate args.output_file])
    | .ok _ =>
      match args.body_output_file with
      | none =>
        some (.ok (), [.netCall pr, .truncate args.output_file, .fileWrite args.output_file serialized])
      | some bpath =>
        match w.createFile bpath with
        | .error n =>
          some (.fail ("Failed to create output file. OS error " ++ toString n),
            [.netCall pr, .truncate args.output_file, .fileWrite args.output_file serialized])
        | .ok _ =>
          match w.writeFile bpath body with
          | .error ioe =>
            some (.fail ("Failed to write to output file. OS error " ++ toString ioe.code),
              [.netCall pr, .truncate args.output_file, .fileWrite args.output_file serialized,
               .truncate bpath])
          | .ok _ =>
            some (.ok (), [.netCall pr, .truncate args.output_file,
              .fileWrite args.output_file serialized, .truncate bpath, .fileWrite bpath body])

/-- Top-level pipeline: function `respond` of processing.rs, in the exact
source order: overwrite checks on both output paths, read and deserialize
the input file, resolve the body, normalize, send, project, serialize, write
the output document, then write the optional body artifact.  The result is
`none` when the confirmation loop never terminates, and otherwise the run
outcome together with the ordered side effects. -/
def respond (w : World) (args : Arguments) : Option (Outcome Unit × List Event) :=
  match check_output_file w.pathExists args.output_file w.stdin with
  | none => none
  | some (.error e, _) => some (.fail e, [])
  | some (.ok _, stdin1) =>
    match check_body_output_file w.pathExists args.body_output_file stdin1 with
    | none => none
    | some (.error e, _) => some (.fail e, [])
    | some (.ok _, _) =>
      match open_and_read_input w.readFile args.request_file with
      | .error e => some (.fail e, [])
      | .ok contents =>
        match w.deserialize contents with
        | .error e => some (.fail e, [])
        | .ok raw =>
          match get_body w.readFile raw with
          | .error e => some (.fail e, [])
          | .ok body =>
            match process_request_data raw body with
            | .error e => some (.fail e, [])
            | .ok pr =>
              match make_request w.urlParse w.send pr with
              | (.crash, _) => some (.crash, [])
              | (.fail e, sent) => some (.fail e, if sent then [.netCall pr] else [])
              | (.ok resp, _) =>
                match convert_response resp with
                | .error e => some (.fail e, [.netCall pr])
                | .ok out => write_outputs w args (serialize_response out) body pr

/-! ### Helper lemmas about the header resolution loop -/

/-- When header resolution succeeds, a null `content-length` entry of the
input (any casing) appears in the output under its original name, mapped to
the decimal UTF-8 byte length of the body. -/
theorem resolve_headers_mem_null_cl (body : String) (hs : List (String × Option String))
    (h : String) (out : List (String × String))
    (hres : resolve_headers body hs = .ok out)
    (hmem : (h, (none : Option String)) ∈ hs)
    (hcl : to_lowercase h = "content-length") :
    (h, toString body.utf8ByteSize) ∈ out := by
  induction hs generalizing out with
  | nil => simp at hmem
  | cons kv rest ih =>
    obtain ⟨k, v⟩ := kv
    rcases List.mem_cons.mp hmem with heq | hmem2
    · obtain ⟨rfl, rfl⟩ := Prod.mk.inj heq
      rw [resolve_headers, if_pos hcl] at hres
      cases hr : resolve_headers body rest with
      | ok tail => rw [hr] at hres; simp at hres; rw [← hres]; exact List.mem_cons_self _ _
      | error e => rw [hr] at hres; simp at hres
    · cases v with
      | some c =>
        rw [resolve_headers] at hres
        cases hr : resolve_headers body rest with
        | ok tail =>
          rw [hr] at hres; simp at hres
          exact hres ▸ List.mem_cons_of_mem _ (ih tail hr hmem2)
        | error e => rw [hr] at hres; simp at hres
      | none =>
        rw [resolve_headers] at hres
        by_cases hk : to_lowercase k = "content-length"
        · rw [if_pos hk] at hres
          cases hr : resolve_headers body rest with
          | ok tail =>
            rw [hr] at hres; simp at hres
            exact hres ▸ List.mem_cons_of_mem _ (ih tail hr hmem2)
          | error e => rw [hr] at hres; simp at hres
        · rw [if_neg hk] at hres; simp at hres

/-- When header resolution succeeds, every explicitly-valued input entry
appears verbatim in the output. -/
theorem resolve_headers_mem_some (body : String) (hs : List (String × Option String))
    (h v : String) (out : List (String × String))
    (hres : resolve_headers body hs = .ok out)
    (hmem : (h, some v) ∈ hs) :
    (h, v) ∈ out := by
  induction hs generalizing out with
  | nil => simp at hmem
  | cons kv rest ih =>
    obtain ⟨k, w⟩ := kv
    rcases List.mem_cons.mp hmem with heq | hmem2
    · obtain ⟨rfl, rfl⟩ := Prod.mk.inj heq
      rw [resolve_headers] at hres
      cases hr : resolve_headers body rest with
      | ok tail => rw [hr] at hres; simp at hres; rw [← hres]; exact List.mem_cons_self _ _
      | error e => rw [hr] at hres; simp at hres
    · cases w with
      | some c =>
        rw [resolve_headers] at hres
        cases hr : resolve_headers body rest with
        | ok tail =>
          rw [hr] at hres; simp at hres
          exact hres ▸ List.mem_cons_of_mem _ (ih tail hr hmem2)
        | error e => rw [hr] at hres; simp at hres
      | none =>
        rw [resolve_headers] at hres
        by_cases hk : to_lowercase k = "content-length"
        · rw [if_pos hk] at hres
          cases hr : resolve_headers body rest with
          | ok tail =>
            rw [hr] at hres; simp at hres
            exact hres ▸ List.mem_cons_of_mem _ (ih tail hr hmem2)
          | error e => rw [hr] at hres; simp at hres
        · rw [if_neg hk] at hres; simp at hres

/-- Header resolution succeeds whenever every null-valued entry is a
case-variant of `content-length`. -/
theorem resolve_headers_ok_of_nulls_cl (body : String) (hs : List (String × Option String))
    (hnull : ∀ h, (h, (none : Option String)) ∈ hs → to_lowercase h = "content-length") :
    ∃ out, resolve_headers body hs = .ok out := by
  induction hs with
  | nil => exact ⟨[], rfl⟩
  | cons kv rest ih =>
    obtain ⟨k, v⟩ := kv
    obtain ⟨out, hout⟩ := ih (fun h hm => hnull h (List.mem_cons_of_mem _ hm))
    cases v with
    | some c => exact ⟨(k, c) :: out, by rw [resolve_headers, hout]⟩
    | none =>
      have hk := hnull k (List.mem_cons_self _ _)
      exact ⟨(k, toString body.utf8ByteSize) :: out, by rw [resolve_headers, if_pos hk, hout]⟩

/-- Header resolution fails whenever some null-valued entry is not a
case-variant of `content-length`, and the error is the autocomplete message
naming such an entry. -/
theorem resolve_headers_error_of_bad (body : String) (hs : List (String × Option String))
    (h : String)
    (hmem : (h, (none : Option String)) ∈ hs)
    (hcl : to_lowercase h ≠ "content-length") :
    ∃ h2, resolve_headers body hs = .error (unresolvable_msg h2) ∧
      (h2, (none : Option String)) ∈ hs ∧ to_lowercase h2 ≠ "content-length" := by
  induction hs with
  | nil => simp at hmem
  | cons kv rest ih =>
    obtain ⟨k, v⟩ := kv
    rcases List.mem_cons.mp hmem with heq | hmem2
    · obtain ⟨rfl, rfl⟩ := Prod.mk.inj heq
      exact ⟨h, by rw [resolve_headers, if_neg hcl], List.mem_cons_self _ _, hcl⟩
    · cases v with
      | some c =>
        obtain ⟨h2, he, hm2, hc2⟩ := ih hmem2
        exact ⟨h2, by rw [resolve_headers, he], List.mem_cons_of_mem _ hm2, hc2⟩
      | none =>
        by_cases hk : to_lowercase k = "content-length"
        · obtain ⟨h2, he, hm2, hc2⟩ := ih hmem2
          exact ⟨h2, by rw [resolve_headers, if_pos hk, he], List.mem_cons_of_mem _ hm2, hc2⟩
        · exact ⟨k, by rw [resolve_headers, if_neg hk], List.mem_cons_self _ _, hk⟩

/-! ### Claims -/

/-- Claim C1: body resolution follows the four-case reference definition.
With both sources set, `get_body` fails with the conflicting-source error no
matter what the headers or method contain (it never reads them); with only
`body_path` set it returns exactly the file contents, and an open or read
failure yields the corresponding unreadable-source error; with only `body`
set it returns it verbatim; with neither it returns the empty string. -/
theorem body_resolution_cases (readFile : String → ReadResult) (r : RawRequest) :
    (∀ b p, r.body = some b → r.body_path = some p →
      get_body readFile r = .error "Cannot provide both a body and body_path.") ∧
    (∀ p c, r.body = none → r.body_path = some p → readFile p = ReadResult.ok c →
      get_body readFile r = .ok c) ∧
    (∀ p n, r.body = none → r.body_path = some p → readFile p = ReadResult.openError n →
      get_body readFile r = .error ("Failed to open the body file. OS error: " ++ toString n)) ∧
    (∀ p n, r.body = none → r.body_path = some p → readFile p = ReadResult.readError n →
      get_body readFile r = .error ("Failed to read body file. OS error: " ++ toString n)) ∧
    (∀ b, r.body = some b → r.body_path = none → get_body readFile r = .ok b) ∧
    (r.body = none → r.body_path = none → get_body readFile r = .ok "") := by
  refine ⟨?_, ?_, ?_, ?_, ?_, ?_⟩
  · intro b p hb hp; simp [get_body, hb, hp]
  · intro p c hb hp hr; simp [get_body, hb, hp, hr]
  · intro p n hb hp hr; simp [get_body, hb, hp, hr]
  · intro p n hb hp hr; simp [get_body, hb, hp, hr]
  · intro b hb hp; simp [get_body, hb, hp]
  · intro hb hp; simp [get_body, hb, hp]

/-- Witness for C1: all four cases evaluated at concrete inputs. -/
theorem body_resolution_cases_witness :
    get_body (fun _ => ReadResult.ok "data")
      { url := "u", method := "get", headers := [], body := some "b", body_path := some "p" } =
      .error "Cannot provide both a body and body_path." ∧
    get_body (fun _ => ReadResult.ok "file contents\n")
      { url := "u", method := "get", headers := [], body := none, body_path := some "p" } =
      .ok "file contents\n" ∧
    get_body (fun _ => ReadResult.openError 2)
      { url := "u", method := "get", headers := [], body := none, body_path := some "p" } =
      .error "Failed to open the body file. OS error: 2" ∧
    get_body (fun _ => ReadResult.ok "ignored")
      { url := "u", method := "get", headers := [], body := some "inline", body_path := none } =
      .ok "inline" ∧
    get_body (fun _ => ReadResult.ok "ignored")
      { url := "u", method := "get", headers := [], body := none, body_path := none } =
      .ok "" :=
  ⟨(body_resolution_cases _ _).1 "b" "p" rfl rfl,
   (body_resolution_cases _ _).2.1 "p" "file contents\n" rfl rfl rfl,
   (body_resolution_cases _ _).2.2.1 "p" 2 rfl rfl rfl,
   (body_resolution_cases _ _).2.2.2.2.1 "inline" rfl rfl,
   (body_resolution_cases _ _).2.2.2.2.2 rfl rfl⟩

/-- Claim C4 counterexample: the method string FETCH does not fail with the
invalid-method error; it is a syntactically legal HTTP token, so
`Method::from_bytes` accepts it as an extension method and conversion
succeeds. -/
theorem fetch_method_accepted : convert_http_method "FETCH" = .ok "FETCH" := rfl

/-- Claim C4 (amended): method resolution is case-insensitive — get, GET and
Get all resolve to the same method GET and succeed; FETCH, being a legal
token, also succeeds as an extension method; a method containing a character
outside the HTTP token set (or an empty method) fails with the
invalid-method error naming the original string. -/
theorem method_case_insensitive_validation :
    convert_http_method "get" = .ok "GET" ∧
    convert_http_method "GET" = .ok "GET" ∧
    convert_http_method "Get" = .ok "GET" ∧
    convert_http_method "FETCH" = .ok "FETCH" ∧
    convert_http_method "GE T" = .error "The provided HTTP method of GE T is invalid." ∧
    convert_http_method "" = .error "The provided HTTP method of  is invalid." :=
  ⟨rfl, rfl, rfl, rfl, rfl, rfl⟩

/-- Claim C2: whenever normalization succeeds on a request whose header map
holds a null-valued `content-length` (matched case-insensitively), the
produced header map holds, under the originally-cased name, the decimal
string of the UTF-8 byte length of the resolved body; and normalization does
succeed whenever the method is valid and every null-valued header is a
case-variant of `content-length`. -/
theorem content_length_auto_resolution (r : RawRequest) (body : String) (h : String)
    (hmem : (h, (none : Option String)) ∈ r.headers)
    (hcl : to_lowercase h = "content-length") :
    (∀ pr, process_request_data r body = .ok pr →
      (h, toString body.utf8ByteSize) ∈ pr.headers) ∧
    ((∃ m, convert_http_method r.method = .ok m) →
     (∀ h2, (h2, (none : Option String)) ∈ r.headers → to_lowercase h2 = "content-length") →
     ∃ pr, process_request_data r body = .ok pr) := by
  constructor
  · intro pr hpr
    rw [process_request_data] at hpr
    cases hm : convert_http_method r.method with
    | error e => rw [hm] at hpr; simp at hpr
    | ok m =>
      rw [hm] at hpr
      cases hh : resolve_headers body r.headers with
      | error e => rw [hh] at hpr; simp at hpr
      | ok out =>
        rw [hh] at hpr; simp at hpr
        rw [← hpr]
        exact resolve_headers_mem_null_cl body r.headers h out hh hmem hcl
  · rintro ⟨m, hm⟩ hnull
    obtain ⟨out, hout⟩ := resolve_headers_ok_of_nulls_cl body r.headers hnull
    exact ⟨_, by rw [process_request_data, hm, hout]⟩

/-- Witness for C2: the spec's own example — resolved body hi (2 UTF-8
bytes) yields header value 2 under the original casing Content-Length. -/
theorem content_length_auto_resolution_witness :
    (("Content-Length" : String), toString (String.utf8ByteSize "hi")) ∈
      ({ url := "u", method := "GET", headers := [("Content-Length", "2")], body := "hi" }
        : ProcessedRequest).headers :=
  (content_length_auto_resolution
      { url := "u", method := "get", headers := [("Content-Length", none)],
        body := some "hi", body_path := none }
      "hi" "Content-Length" (List.mem_cons_self _ _) rfl).1
    { url := "u", method := "GET", headers := [("Content-Length", "2")], body := "hi" } rfl

/-- Claim C3 counterexample: a request holding a null-valued non-
content-length header X-Custom but an invalid method string fails with the
invalid-method error, not with an unresolvable-header error naming X-Custom
(method conversion runs before the header loop), so normalization does not
fail with an UnresolvableHeader error for every such request. -/
theorem null_header_shadowed_by_method_error :
    process_request_data
      { url := "u", method := "B@D", headers := [("X-Custom", none)],
        body := none, body_path := none } "" =
      .error "The provided HTTP method of B@D is invalid." ∧
    "The provided HTTP method of B@D is invalid." ≠ unresolvable_msg "X-Custom" :=
  ⟨rfl, by decide⟩

/-- Claim C3 (amended): for every request holding a null-valued header that
is not a case-variant of content-length, normalization fails — a null value
is never silently sent or dropped — and, provided the method string is valid
(method validation runs first and its error takes precedence), the failure
is the unresolvable-header error naming such a header. -/
theorem unresolvable_header_failure (r : RawRequest) (body : String) (h : String)
    (hmem : (h, (none : Option String)) ∈ r.headers)
    (hcl : to_lowercase h ≠ "content-length") :
    (∃ e, process_request_data r body = .error e) ∧
    (∀ m, convert_http_method r.method = .ok m →
      ∃ h2, process_request_data r body = .error (unresolvable_msg h2) ∧
        (h2, (none : Option String)) ∈ r.headers ∧ to_lowercase h2 ≠ "content-length") := by
  have key : ∀ m, convert_http_method r.method = .ok m →
      ∃ h2, process_request_data r body = .error (unresolvable_msg h2) ∧
        (h2, (none : Option String)) ∈ r.headers ∧ to_lowercase h2 ≠ "content-length" := by
    intro m hm
    obtain ⟨h2, he, hm2, hc2⟩ := resolve_headers_error_of_bad body r.headers h hmem hcl
    exact ⟨h2, by rw [process_request_data, hm, he], hm2, hc2⟩
  constructor
  · cases hm : convert_http_method r.method with
    | error e => exact ⟨e, by rw [process_request_data, hm]⟩
    | ok m => obtain ⟨h2, he, _, _⟩ := key m hm; exact ⟨unresolvable_msg h2, he⟩
  · exact key

/-- Witness for C3 (amended) at a concrete request with the valid method
get and the null header X-Api-Key. -/
theorem unresolvable_header_failure_witness :
    ∃ e, process_request_data
      { url := "u", method := "get", headers := [("X-Api-Key", none)],
        body := none, body_path := none } "" = .error e :=
  (unresolvable_header_failure
      { url := "u", method := "get", headers := [("X-Api-Key", none)],
        body := none, body_path := none }
      "" "X-Api-Key" (List.mem_cons_self _ _) (by decide)).1

/-- Claim C5 counterexample: the normalizer does not parse the url.  The
string not a url has no scheme, so `url::Url::parse` rejects it, yet
`process_request_data` succeeds and the produced outbound request carries
that unparsed string verbatim — the InvalidUrl failure cannot come from the
normalizer. -/
theorem normalizer_skips_url_validation :
    has_scheme "not a url" = false ∧
    process_request_data
      { url := "not a url", method := "get", headers := [], body := none, body_path := none }
      "" =
      .ok { url := "not a url", method := "GET", headers := [], body := "" } :=
  ⟨rfl, rfl⟩

/-- Claim C5 (amended): URL resolution happens in the Transport Executor,
not in the Request Normalizer.  Whenever method conversion and header
resolution succeed, normalization succeeds and copies the url string through
verbatim and unvalidated; `make_request` then parses it before doing
anything else and, when parsing fails, returns the InvalidUrl-style error
without any network send. -/
theorem url_parsing_in_transport (r : RawRequest) (body : String) (m : String)
    (hs : List (String × String))
    (hm : convert_http_method r.method = .ok m)
    (hh : resolve_headers body r.headers = .ok hs) :
    process_request_data r body = .ok { url := r.url, method := m, headers := hs, body := body } ∧
    (∀ (urlParse : String → Except String String)
       (send : ProcessedRequest → Except String ResponseData)
       (pr : ProcessedRequest) (e : String),
      urlParse pr.url = .error e →
      make_request urlParse send pr = (Outcome.fail ("Error while parsing URL. " ++ e), false)) := by
  constructor
  · rw [process_request_data, hm, hh]
  · intro urlParse send pr e hu
    rw [make_request, hu]

/-- Witness for C5 (amended): a request whose url string lacks any scheme
normalizes successfully, and a transport whose parser rejects it reports the
parse error with no send. -/
theorem url_parsing_in_transport_witness :
    process_request_data
      { url := "definitely-not-a-url", method := "post", headers := [],
        body := some "x", body_path := none } "x" =
      .ok { url := "definitely-not-a-url", method := "POST", headers := [], body := "x" } ∧
    make_request (fun _ => .error "relative URL without a base")
      (fun _ => .error "unused")
      { url := "definitely-not-a-url", method := "POST", headers := [], body := "x" } =
      (Outcome.fail "Error while parsing URL. relative URL without a base", false) :=
  ⟨(url_parsing_in_transport
      { url := "definitely-not-a-url", method := "post", headers := [],
        body := some "x", body_path := none }
      "x" "POST" [] rfl rfl).1,
   (url_parsing_in_transport
      { url := "definitely-not-a-url", method := "post", headers := [],
        body := some "x", body_path := none }
      "x" "POST" [] rfl rfl).2
     (fun _ => .error "relative URL without a base") (fun _ => .error "unused")
     { url := "definitely-not-a-url", method := "POST", headers := [], body := "x" }
     "relative URL without a base" rfl⟩

/-- Claim C7: response projection degrades non-fatally on headers but
fatally on the body.  When the body text is available, projection succeeds
and each header is copied with an undecodable value replaced by the empty
string — in particular every header whose value fails text decoding is
mapped to the empty string — whereas a failure to read or decode the
response body as text fails the whole projection with the body-decode
error. -/
theorem response_projection_degradation (resp : ResponseData) :
    (∀ b, resp.body = .ok b →
      convert_response resp = .ok { headers := output_headers resp.headers,
                                    status_code := toString resp.status, body := b }) ∧
    (∀ k bytes, (k, bytes) ∈ resp.headers → header_value_to_str bytes = none →
      (k, "") ∈ output_headers resp.headers) ∧
    (∀ e, resp.body = .error e →
      convert_response resp = .error ("Failed to get text from response body, " ++ e)) := by
  refine ⟨?_, ?_, ?_⟩
  · intro b hb; rw [convert_response, hb]
  · intro k bytes hmem hdec
    have : ((k, bytes).1, match header_value_to_str (k, bytes).2 with
            | some v => v | none => "") ∈ output_headers resp.headers :=
      List.mem_map_of_mem _ hmem
    rw [hdec] at this
    exact this
  · intro e he; rw [convert_response, he]

/-- Witness for C7: a header whose value byte 200 is not visible ASCII is
projected to the empty string while projection succeeds, and a failing body
read fails the whole projection. -/
theorem response_projection_degradation_witness :
    convert_response { status := 200, headers := [("x-bad", [200])], body := .ok "ok" } =
      .ok { headers := output_headers [("x-bad", [200])], status_code := toString 200,
            body := "ok" } ∧
    (("x-bad" : String), "") ∈ output_headers [("x-bad", [200])] ∧
    convert_response { status := 500, headers := [], body := .error "boom" } =
      .error ("Failed to get text from response body, " ++ "boom") :=
  ⟨(response_projection_degradation
      { status := 200, headers := [("x-bad", [200])], body := .ok "ok" }).1 "ok" rfl,
   (response_projection_degradation
      { status := 200, headers := [("x-bad", [200])], body := .ok "ok" }).2.1
     "x-bad" [200] (List.mem_cons_self _ _) rfl,
   (response_projection_degradation
      { status := 500, headers := [], body := .error "boom" }).2.2 "boom" rfl⟩

/-- Claim C8: for a successful transport response with status 200, headers
mapping x-a to the byte of the digit 1, and body ok, the projector yields
the output document with status_code 200, headers x-a to 1 and body ok, and
serializing that document then parsing the serialization back yields an
equal structure. -/
theorem projection_serialization_roundtrip :
    convert_response { status := 200, headers := [("x-a", [49])], body := .ok "ok" } =
      .ok { headers := [("x-a", "1")], status_code := "200", body := "ok" } ∧
    serialize_response { headers := [("x-a", "1")], status_code := "200", body := "ok" } =
      "\x7b\"headers\":\x7b\"x-a\":\"1\"\x7d,\"status_code\":\"200\",\"body\":\"ok\"\x7d" ∧
    parse_output (serialize_response
      { headers := [("x-a", "1")], status_code := "200", body := "ok" }) =
      some { headers := [("x-a", "1")], status_code := "200", body := "ok" } :=
  ⟨rfl, rfl, rfl⟩

/-- Claim C9: the overwrite-confirmation decision on one input line accepts
exactly the case-insensitive strings y and yes (proceed) and n and no
(abort) after lowercasing and trimming trailing whitespace; any other line,
and a failed line read, produces no decision and the loop re-prompts on the
remaining input. -/
theorem confirmation_decision (buffer : String) (rest : List (Option String)) :
    (confirm_input buffer = some true ↔
      (trim_end (to_lowercase buffer) = "y" ∨ trim_end (to_lowercase buffer) = "yes")) ∧
    (confirm_input buffer = some false ↔
      (trim_end (to_lowercase buffer) = "n" ∨ trim_end (to_lowercase buffer) = "no")) ∧
    (confirm_loop (none :: rest) = confirm_loop rest) ∧
    (confirm_input buffer = none → confirm_loop (some buffer :: rest) = confirm_loop rest) ∧
    (confirm_input buffer = some true →
      confirm_loop (some buffer :: rest) = some (.ok true, rest)) ∧
    (confirm_input buffer = some false →
      confirm_loop (some buffer :: rest) =
        some (.error "Exited due to inability to overwrite existing file.", rest)) := by
  refine ⟨?_, ?_, rfl, ?_, ?_, ?_⟩
  · simp only [confirm_input]
    by_cases h1 : trim_end (to_lowercase buffer) = "y" ∨ trim_end (to_lowercase buffer) = "yes"
    · rw [if_pos h1]; exact ⟨fun _ => h1, fun _ => rfl⟩
    · rw [if_neg h1]
      by_cases h2 : trim_end (to_lowercase buffer) = "n" ∨ trim_end (to_lowercase buffer) = "no"
      · rw [if_pos h2]; simp [h1]
      · rw [if_neg h2]; simp [h1]
  · simp only [confirm_input]
    by_cases h1 : trim_end (to_lowercase buffer) = "y" ∨ trim_end (to_lowercase buffer) = "yes"
    · rw [if_pos h1]
      rcases h1 with h | h <;> rw [h] <;> simp
    · rw [if_neg h1]
      by_cases h2 : trim_end (to_lowercase buffer) = "n" ∨ trim_end (to_lowercase buffer) = "no"
      · rw [if_pos h2]; exact ⟨fun _ => h2, fun _ => rfl⟩
      · rw [if_neg h2]; simp [h2]
  · intro h; rw [confirm_loop, h]
  · intro h; rw [confirm_loop, h]
  · intro h; rw [confirm_loop, h]

/-- Witness for C9: YES with trailing blanks proceeds, and a failed read
followed by an unrecognized line followed by No aborts the run. -/
theorem confirmation_decision_witness :
    confirm_loop [some "YES  "] = some (.ok true, []) ∧
    confirm_loop [none, some "maybe", some "No"] =
      some (.error "Exited due to inability to overwrite existing file.", []) := by
  constructor
  · exact (confirmation_decision "YES  " []).2.2.2.2.1 rfl
  · calc confirm_loop [none, some "maybe", some "No"]
        = confirm_loop [some "maybe", some "No"] :=
          (confirmation_decision "" [some "maybe", some "No"]).2.2.1
      _ = confirm_loop [some "No"] :=
          (confirmation_decision "maybe" [some "No"]).2.2.2.1 rfl
      _ = some (.error "Exited due to inability to overwrite existing file.", []) :=
          (confirmation_decision "No" []).2.2.2.2.2 rfl

/-- Claim C6: when an output path already exists and the confirmation loop
answers no, the run aborts with the abort reason and produces no side
effects at all — in particular no network call and no file truncation or
write.  This holds for the main output path and for the optional body output
path alike (both checks run before the input file is even opened). -/
theorem abort_on_overwrite_decline (w : World) (args : Arguments) (msg : String)
    (rest : List (Option String)) :
    (w.pathExists args.output_file = true →
      confirm_loop w.stdin = some (.error msg, rest) →
      respond w args = some (Outcome.fail msg, ([] : List Event))) ∧
    (∀ bpath, w.pathExists args.output_file = false →
      args.body_output_file = some bpath →
      w.pathExists bpath = true →
      confirm_loop w.stdin = some (.error msg, rest) →
      respond w args = some (Outcome.fail msg, ([] : List Event))) := by
  constructor
  · intro hex hno
    simp [respond, check_output_file, hex, hno]
  · intro bpath hex hb hbex hno
    simp [respond, check_output_file, check_body_output_file, hex, hb, hbex, hno]

/-- Witness for C6: a world whose output path exists and whose stdin answers
n aborts with the source's abort reason and an empty effect trace. -/
theorem abort_on_overwrite_decline_witness :
    respond
      { pathExists := fun _ => true, stdin := [some "n"],
        readFile := fun _ => ReadResult.ok "", createFile := fun _ => .ok (),
        writeFile := fun _ _ => .ok (), deserialize := fun _ => .error "unused",
        urlParse := fun s => .ok s, send := fun _ => .error "unused" }
      { request_file := "request.json", output_file := "response.json",
        body_output_file := none } =
      some (Outcome.fail "Exited due to inability to overwrite existing file.",
        ([] : List Event)) :=
  (abort_on_overwrite_decline
      { pathExists := fun _ => true, stdin := [some "n"],
        readFile := fun _ => ReadResult.ok "", createFile := fun _ => .ok (),
        writeFile := fun _ _ => .ok (), deserialize := fun _ => .error "unused",
        urlParse := fun s => .ok s, send := fun _ => .error "unused" }
      { request_file := "request.json", output_file := "response.json",
        body_output_file := none }
      "Exited due to inability to overwrite existing file." []).1 rfl rfl

/-- Claim C10: the normalizer performs no validation of header names or of
explicit header values — with a valid method and all null headers being
content-length variants, normalization succeeds and copies every
explicitly-valued header verbatim into the outbound request, however illegal
as an HTTP token or value — and an invalid entry only surfaces in the
Transport Executor, where the unwrap on the header conversion crashes the
process (no TransportError is returned and no send happens). -/
theorem header_validation_deferred (r : RawRequest) (body : String) (m : String)
    (hm : convert_http_method r.method = .ok m)
    (hnull : ∀ h, (h, (none : Option String)) ∈ r.headers → to_lowercase h = "content-length") :
    (∃ pr, process_request_data r body = .ok pr ∧
      ∀ h v, (h, some v) ∈ r.headers → (h, v) ∈ pr.headers) ∧
    (∀ (urlParse : String → Except String String)
       (send : ProcessedRequest → Except String ResponseData)
       (pr : ProcessedRequest),
      (∃ u, urlParse pr.url = .ok u) →
      pr.headers.all valid_header = false →
      make_request urlParse send pr = (Outcome.crash, false)) := by
  constructor
  · obtain ⟨out, hout⟩ := resolve_headers_ok_of_nulls_cl body r.headers hnull
    refine ⟨{ url := r.url, method := m, headers := out, body := body },
      by rw [process_request_data, hm, hout], ?_⟩
    intro h v hmem
    exact resolve_headers_mem_some body r.headers h v out hout hmem
  · rintro urlParse send pr ⟨u, hu⟩ hall
    rw [make_request, hu]
    simp [hall]

/-- Witness for C10: a processed request carrying the header name Bad Name
(illegal: contains a space) crashes the transport stage before any send,
even though its url parses. -/
theorem header_validation_deferred_witness :
    make_request (fun s => .ok s) (fun _ => .error "unused")
      { url := "http://e/", method := "GET", headers := [("Bad Name", "v")], body := "" } =
      (Outcome.crash, false) :=
  (header_validation_deferred
      { url := "http://e/", method := "get", headers := [], body := none, body_path := none }
      "" "GET" rfl (by intro h hm; simp at hm)).2
    (fun s => .ok s) (fun _ => .error "unused")
    { url := "http://e/", method := "GET", headers := [("Bad Name", "v")], body := "" }
    ⟨"http://e/", rfl⟩ rfl
